import Mathlib

/-!
Verification of the imgui-glium renderer core
(`src/imgui_glium_renderer.rs`): the draw-command translation and
texture-registry subsystem.

Shallow embedding conventions:
* `f32` values (display geometry, clip rectangles, the projection matrix)
  are modelled as exact rationals `ℚ`; the claims under study are about the
  algebraic relations the code establishes, not about float rounding.
* `usize` texture identifiers are modelled as `ℕ`, with the sentinel
  `usize::MAX` as the constant `usizeMAX = 2^64 - 1`.
* GPU-side objects (`Texture2d`, `Program`, the glium context) are opaque
  handles modelled as `ℕ`.
* Fallible external GPU operations (vertex/index buffer creation, draw
  submission) are resolved by an oracle `GpuEnv` that says, per draw list
  (for buffer creation) and per draw-call sequence number (for submission),
  whether the backend rejects the operation and with which error payload.
* `render` returns the post-call renderer state, an outcome
  (ok / typed error / panic), and the list of draw calls issued to the
  `target` surface, in issue order.  Each issued call is tagged with the
  draw-list index and command index it came from, so theorems can relate
  calls back to the commands of the snapshot.
* Scissor-rectangle fields are kept as `ℤ` (the exact values of the
  `.floor()` / `.ceil()` computations before the final `as u32` cast, which
  is exact for the non-negative in-range values the code produces).
-/

/-- The `usize::MAX` sentinel texture identifier (64-bit platform). -/
def usizeMAX : ℕ := 2 ^ 64 - 1

/-- The `SamplerBehavior` sampling configuration is data owned by the GPU backend;
its contents are irrelevant to the claims, modelled as an opaque code. -/
structure SamplerBehavior where
  code : ℕ
deriving DecidableEq, Repr

/-- The `pub struct Texture { texture: Rc<Texture2d>, sampler: SamplerBehavior }` entry,
with the GPU texture object abstracted to an opaque handle. -/
structure Texture where
  texture : ℕ
  sampler : SamplerBehavior
deriving DecidableEq, Repr

/-- Modelled from the spec: the dynamic texture registry (`Textures<T>` of
the external imgui crate, not under `src/`): a mapping from identifiers to
entries plus a fresh-identifier counter.  `insert` "registers a new entry,
returns a fresh unique identifier"; `remove` "releases the mapping entry". -/
structure Textures where
  map : List (ℕ × Texture)
  next : ℕ
deriving DecidableEq, Repr

/-- Modelled from the spec: the empty registry. -/
def Textures.new : Textures := ⟨[], 0⟩

/-- Modelled from the spec: lookup of an identifier in the dynamic mapping. -/
def Textures.get (ts : Textures) (id : ℕ) : Option Texture :=
  (ts.map.find? (fun p => p.1 = id)).map Prod.snd

/-- Modelled from the spec: registers a new entry under the next fresh
identifier and returns that identifier together with the new registry. -/
def Textures.insert (ts : Textures) (tex : Texture) : ℕ × Textures :=
  (ts.next, ⟨(ts.next, tex) :: ts.map, ts.next + 1⟩)

/-- Modelled from the spec: releases the mapping entry for `id`. -/
def Textures.remove (ts : Textures) (id : ℕ) : Textures :=
  ⟨ts.map.filter (fun p => p.1 ≠ id), ts.next⟩

/-- The `enum RendererError`, with the payloads of the backend error variants
abstracted to opaque codes and `BadTexture` carrying the texture id. -/
inductive RendererError where
  | Vertex (e : ℕ)
  | Index (e : ℕ)
  | Program (e : ℕ)
  | Texture (e : ℕ)
  | Draw (e : ℕ)
  | BadTexture (id : ℕ)
deriving DecidableEq, Repr

/-- The `pub struct Renderer { ctx, program, font_texture, textures }` state. -/
structure Renderer where
  ctx : ℕ
  program : ℕ
  font_texture : Texture
  textures : Textures
deriving DecidableEq, Repr

/-- Method `Renderer::lookup_texture`: the sentinel resolves to the font atlas,
anything else goes through the dynamic mapping, absence is `BadTexture`. -/
def Renderer.lookup_texture (r : Renderer) (texture_id : ℕ) :
    Except RendererError Texture :=
  if texture_id = usizeMAX then
    Except.ok r.font_texture
  else
    match r.textures.get texture_id with
    | some texture => Except.ok texture
    | none => Except.error (RendererError.BadTexture texture_id)

/-- Method `Renderer::reload_font_texture` (successful path): swaps the font-atlas
entry for the freshly uploaded one.  The upload itself
(`upload_font_texture`) is external GPU work; its result is the argument. -/
def Renderer.reload_font_texture (r : Renderer) (newFont : Texture) : Renderer :=
  { r with font_texture := newFont }

/-- A homogeneous 4-vector of rationals. -/
structure Vec4 where
  x : ℚ
  y : ℚ
  z : ℚ
  w : ℚ
deriving DecidableEq, Repr

/-- A 4×4 matrix given by its four columns, matching the GLSL
interpretation of the code's `[[f32; 4]; 4]` literal (each inner array is
one column of the matrix the shader multiplies by). -/
structure Mat4 where
  c0 : Vec4
  c1 : Vec4
  c2 : Vec4
  c3 : Vec4
deriving DecidableEq, Repr

/-- Matrix-vector product `m * v` (columns weighted by the components). -/
def Mat4.apply (m : Mat4) (v : Vec4) : Vec4 :=
  { x := m.c0.x * v.x + m.c1.x * v.y + m.c2.x * v.z + m.c3.x * v.w
    y := m.c0.y * v.x + m.c1.y * v.y + m.c2.y * v.z + m.c3.y * v.w
    z := m.c0.z * v.x + m.c1.z * v.y + m.c2.z * v.z + m.c3.z * v.w
    w := m.c0.w * v.x + m.c1.w * v.y + m.c2.w * v.z + m.c3.w * v.w }

/-- The orthographic projection matrix literal computed by
`Renderer::render` from the display rectangle edges. -/
def orthoMatrix (left right top bottom : ℚ) : Mat4 :=
  { c0 := ⟨2 / (right - left), 0, 0, 0⟩
    c1 := ⟨0, 2 / (top - bottom), 0, 0⟩
    c2 := ⟨0, 0, -1, 0⟩
    c3 := ⟨(right + left) / (left - right), (top + bottom) / (bottom - top), 0, 1⟩ }

/-- The vertex type `GliumDrawVert { pos: [f32; 2], uv: [f32; 2], col: [u8; 4] }`. -/
structure GliumDrawVert where
  pos : ℚ × ℚ
  uv : ℚ × ℚ
  col : ℕ × ℕ × ℕ × ℕ
deriving DecidableEq, Repr

/-- A clip rectangle `[f32; 4]`: left, top, right, bottom edges. -/
structure ClipRect where
  r0 : ℚ
  r1 : ℚ
  r2 : ℚ
  r3 : ℚ
deriving DecidableEq, Repr

/-- The `imgui::DrawCmd` variants: a textured, clipped element range, a state-reset
marker (no-op), or an opaque raw callback (payload abstracted). -/
inductive DrawCmd where
  | Elements (count : ℕ) (clip_rect : ClipRect) (texture_id : ℕ)
      (vtx_offset : ℕ) (idx_offset : ℕ)
  | ResetRenderState
  | RawCallback (raw_cmd : ℕ)
deriving DecidableEq, Repr

/-- One imgui draw list: a vertex buffer, an index buffer (u16 indices),
and an ordered command sequence. -/
structure DrawList where
  vtx_buffer : List GliumDrawVert
  idx_buffer : List ℕ
  commands : List DrawCmd
deriving DecidableEq, Repr

/-- The per-frame `imgui::DrawData` snapshot. -/
structure DrawData where
  display_pos : ℚ × ℚ
  display_size : ℚ × ℚ
  framebuffer_scale : ℚ × ℚ
  draw_lists : List DrawList
deriving DecidableEq, Repr

/-- The `glium::Rect` scissor rectangle handed to the backend; fields are
the exact integer values of the code's floor/ceil computations (the final
`as u32` cast is exact on the non-negative values produced). -/
structure Rect where
  left : ℤ
  bottom : ℤ
  width : ℤ
  height : ℤ
deriving DecidableEq, Repr

/-- One draw call issued to the target surface: the buffer slice, the
uniforms (matrix and resolved texture) and the scissor rectangle, tagged
with the draw-list index and command index it was issued for. -/
structure DrawCall where
  list_index : ℕ
  cmd_index : ℕ
  count : ℕ
  vtx_offset : ℕ
  idx_offset : ℕ
  matrix : Mat4
  texture : Texture
  scissor : Rect
deriving DecidableEq, Repr

/-- Outcome of a `render` call: success, a typed `RendererError` (the `?`
propagation paths), or a panic (the `.expect(..)` calls on buffer slicing). -/
inductive RenderOutcome where
  | ok
  | error (e : RendererError)
  | panicked (msg : String)
deriving DecidableEq, Repr

/-- Oracle resolving the fallible external GPU operations: whether vertex
or index buffer creation fails for the draw list at a given index, and
whether the backend rejects the n-th draw submission of the frame. -/
structure GpuEnv where
  vtxErr : ℕ → Option ℕ
  idxErr : ℕ → Option ℕ
  drawErr : ℕ → Option ℕ

/-- The per-frame quantities `Renderer::render` computes before the loop:
framebuffer dimensions, clip offset/scale, and the projection matrix. -/
structure FrameCtx where
  fbWidth : ℚ
  fbHeight : ℚ
  clipOff : ℚ × ℚ
  clipScale : ℚ × ℚ
  matrix : Mat4
deriving DecidableEq, Repr

/-- The draw call issued for a surviving `Elements` command whose
transformed clip rectangle is `(c0, c1, c2, c3)`: scissor origin clamped
to zero and vertically flipped, extent the rounded-up absolute difference
of the unclamped edges. -/
def mkDrawCall (fc : FrameCtx) (li ci : ℕ) (count : ℕ) (c0 c1 c2 c3 : ℚ)
    (tex : Texture) (vo idxo : ℕ) : DrawCall :=
  { list_index := li
    cmd_index := ci
    count := count
    vtx_offset := vo
    idx_offset := idxo
    matrix := fc.matrix
    texture := tex
    scissor :=
      { left := ⌊max 0 c0⌋
        bottom := ⌊max 0 (fc.fbHeight - c3)⌋
        width := ⌈|c2 - c0|⌉
        height := ⌈|c3 - c1|⌉ } }

/-- The inner command loop of `Renderer::render` for one draw list
(`for cmd in draw_list.commands()`): `vl`/`il` are the list's vertex and
index buffer lengths, `seq` the frame-global draw-submission counter, `ci`
the index of the next command.  Returns the outcome, the draw calls issued
by this loop, and the final submission counter. -/
def renderCmds (env : GpuEnv) (r : Renderer) (fc : FrameCtx) (li vl il : ℕ) :
    ℕ → ℕ → List DrawCmd → RenderOutcome × List DrawCall × ℕ
  | seq, _, [] => (RenderOutcome.ok, [], seq)
  | seq, ci, cmd :: rest =>
    match cmd with
    | DrawCmd.Elements count clip tid vo idxo =>
      let c0 := (clip.r0 - fc.clipOff.1) * fc.clipScale.1
      let c1 := (clip.r1 - fc.clipOff.2) * fc.clipScale.2
      let c2 := (clip.r2 - fc.clipOff.1) * fc.clipScale.1
      let c3 := (clip.r3 - fc.clipOff.2) * fc.clipScale.2
      if c0 < fc.fbWidth ∧ c1 < fc.fbHeight ∧ 0 ≤ c2 ∧ 0 ≤ c3 then
        match r.lookup_texture tid with
        | Except.error e => (RenderOutcome.error e, [], seq)
        | Except.ok tex =>
          if vl < vo then
            (RenderOutcome.panicked "Invalid vertex buffer range", [], seq)
          else if il < idxo + count then
            (RenderOutcome.panicked "Invalid index buffer range", [], seq)
          else
            match env.drawErr seq with
            | some e => (RenderOutcome.error (RendererError.Draw e), [], seq)
            | none =>
              let res := renderCmds env r fc li vl il (seq + 1) (ci + 1) rest
              (res.1, mkDrawCall fc li ci count c0 c1 c2 c3 tex vo idxo :: res.2.1,
                res.2.2)
      else
        renderCmds env r fc li vl il seq (ci + 1) rest
    | DrawCmd.ResetRenderState => renderCmds env r fc li vl il seq (ci + 1) rest
    | DrawCmd.RawCallback _ => renderCmds env r fc li vl il seq (ci + 1) rest

/-- The outer loop of `Renderer::render`
(`for draw_list in draw_data.draw_lists()`): per list, create the vertex
and index buffers (each may fail with the corresponding typed error), then
run the command loop; a non-ok outcome aborts the remaining lists while
the draw calls already issued stand. -/
def renderLists (env : GpuEnv) (r : Renderer) (fc : FrameCtx) :
    ℕ → ℕ → List DrawList → RenderOutcome × List DrawCall × ℕ
  | _, seq, [] => (RenderOutcome.ok, [], seq)
  | li, seq, dl :: rest =>
    match env.vtxErr li with
    | some e => (RenderOutcome.error (RendererError.Vertex e), [], seq)
    | none =>
      match env.idxErr li with
      | some e => (RenderOutcome.error (RendererError.Index e), [], seq)
      | none =>
        let res := renderCmds env r fc li dl.vtx_buffer.length
          dl.idx_buffer.length seq 0 dl.commands
        if res.1 = RenderOutcome.ok then
          let res' := renderLists env r fc (li + 1) res.2.2 rest
          (res'.1, res.2.1 ++ res'.2.1, res'.2.2)
        else
          res

/-- The per-frame context `Renderer::render` sets up before its loop:
`fb_width`/`fb_height`, `clip_off = display_pos`,
`clip_scale = framebuffer_scale`, and the projection matrix built from the
display rectangle `[display_pos, display_pos + display_size]`. -/
def frameCtx (dd : DrawData) : FrameCtx :=
  { fbWidth := dd.display_size.1 * dd.framebuffer_scale.1
    fbHeight := dd.display_size.2 * dd.framebuffer_scale.2
    clipOff := dd.display_pos
    clipScale := dd.framebuffer_scale
    matrix := orthoMatrix dd.display_pos.1 (dd.display_pos.1 + dd.display_size.1)
      dd.display_pos.2 (dd.display_pos.2 + dd.display_size.2) }

/-- Method `Renderer::render`: degenerate-framebuffer early return, projection
matrix computation, then the draw-list loop.  Returns the renderer state
after the call, the outcome, and the draw calls issued in order. -/
def Renderer.render (env : GpuEnv) (r : Renderer) (dd : DrawData) :
    Renderer × RenderOutcome × List DrawCall :=
  if 0 < dd.display_size.1 * dd.framebuffer_scale.1 ∧
      0 < dd.display_size.2 * dd.framebuffer_scale.2 then
    let res := renderLists env r (frameCtx dd) 0 0 dd.draw_lists
    (r, res.1, res.2.1)
  else
    (r, RenderOutcome.ok, [])

/-- An error-free GPU oracle: the backend accepts every buffer creation
and every draw submission. -/
def envOk : GpuEnv := ⟨fun _ => none, fun _ => none, fun _ => none⟩

/-- A renderer with an empty dynamic texture registry. -/
def r0 : Renderer :=
  { ctx := 0, program := 0, font_texture := ⟨0, ⟨0⟩⟩, textures := Textures.new }

/-- A sample user texture. -/
def tex1 : Texture := ⟨7, ⟨1⟩⟩

/-- A placeholder vertex. -/
def vtx0 : GliumDrawVert := ⟨(0, 0), (0, 0), (0, 0, 0, 255)⟩

/-- A snapshot with a negative `display_size` component and a negative
`framebuffer_scale` component: the products `display_size * scale` are both
positive, so `render` does not take the degenerate-frame early return. -/
def ddNegScale : DrawData :=
  { display_pos := (0, 0)
    display_size := (-8, 6)
    framebuffer_scale := (-1, 1)
    draw_lists :=
      [{ vtx_buffer := [vtx0, vtx0, vtx0]
         idx_buffer := [0, 1, 2]
         commands := [DrawCmd.Elements 3 ⟨-7, 0, 0, 6⟩ usizeMAX 0 0] }] }

/-- A degenerate snapshot with a zero-width display. -/
def ddZeroW : DrawData :=
  { display_pos := (0, 0), display_size := (0, 600)
    framebuffer_scale := (1, 1), draw_lists := [] }

/-- A degenerate snapshot with a negative display width. -/
def ddNegW : DrawData :=
  { display_pos := (0, 0), display_size := (-800, 600)
    framebuffer_scale := (1, 1), draw_lists := [] }

/-- The code's survival condition for an `Elements` command: the
transformed clip rectangle intersects the framebuffer. -/
def visibleIn (fc : FrameCtx) (clip : ClipRect) : Prop :=
  (clip.r0 - fc.clipOff.1) * fc.clipScale.1 < fc.fbWidth ∧
  (clip.r1 - fc.clipOff.2) * fc.clipScale.2 < fc.fbHeight ∧
  0 ≤ (clip.r2 - fc.clipOff.1) * fc.clipScale.1 ∧
  0 ≤ (clip.r3 - fc.clipOff.2) * fc.clipScale.2

instance (fc : FrameCtx) (clip : ClipRect) : Decidable (visibleIn fc clip) := by
  unfold visibleIn; infer_instance

/-- The draw call a surviving `Elements` command with parameters
`(count, clip, tex, vo, idxo)` produces at position `(li, ci)`. -/
def elemDrawCall (fc : FrameCtx) (li ci : ℕ) (count : ℕ) (clip : ClipRect)
    (tex : Texture) (vo idxo : ℕ) : DrawCall :=
  mkDrawCall fc li ci count
    ((clip.r0 - fc.clipOff.1) * fc.clipScale.1)
    ((clip.r1 - fc.clipOff.2) * fc.clipScale.2)
    ((clip.r2 - fc.clipOff.1) * fc.clipScale.1)
    ((clip.r3 - fc.clipOff.2) * fc.clipScale.2) tex vo idxo

/-- The clip rectangle of the sample frame, extending past every edge. -/
def clipW : ClipRect := ⟨-10, -10, 810, 610⟩

/-- A sample draw list: one triangle under `clipW`, font-atlas texture. -/
def dlW : DrawList :=
  { vtx_buffer := [vtx0, vtx0, vtx0]
    idx_buffer := [0, 1, 2]
    commands := [DrawCmd.Elements 3 clipW usizeMAX 0 0] }

/-- A sample 800×600 frame at scale 1 containing `dlW`. -/
def ddW : DrawData :=
  { display_pos := (0, 0), display_size := (800, 600)
    framebuffer_scale := (1, 1), draw_lists := [dlW] }

/-- The draw call the sample frame issues. -/
def cW : DrawCall := elemDrawCall (frameCtx ddW) 0 0 3 clipW r0.font_texture 0 0

/-- A GPU oracle whose vertex-buffer creation always fails. -/
def envVtxFail : GpuEnv := ⟨fun _ => some 1, fun _ => none, fun _ => none⟩

/-- All commands of the snapshot have in-range vertex and index offsets. -/
def offsetsInRange (dd : DrawData) : Prop :=
  ∀ dl ∈ dd.draw_lists, ∀ cmd ∈ dl.commands,
    ∀ (count : ℕ) (clip : ClipRect) (tid vo idxo : ℕ),
      cmd = DrawCmd.Elements count clip tid vo idxo →
      vo ≤ dl.vtx_buffer.length ∧ idxo + count ≤ dl.idx_buffer.length

/-! ## Theorems -/

/-- C3: for every renderer state, resolving the sentinel identifier
returns the current font-atlas entry — also right after
`reload_font_texture` swapped it — and the result is independent of the
dynamic mapping, which is never consulted for the sentinel. -/
theorem sentinel_resolves_to_font_atlas :
    (∀ r : Renderer, r.lookup_texture usizeMAX = Except.ok r.font_texture) ∧
    (∀ (r : Renderer) (t : Texture),
      (r.reload_font_texture t).lookup_texture usizeMAX = Except.ok t) ∧
    (∀ (r : Renderer) (ts : Textures),
      Renderer.lookup_texture { r with textures := ts } usizeMAX =
        Except.ok r.font_texture) := by
  refine ⟨?_, ?_, ?_⟩ <;> intros <;>
    simp [Renderer.lookup_texture, Renderer.reload_font_texture]

/-- C5: resolving an identifier that is not the sentinel and is absent
from the dynamic mapping fails with `BadTexture` carrying exactly that
identifier. -/
theorem unregistered_id_fails_with_BadTexture (r : Renderer) (id : ℕ)
    (hid : id ≠ usizeMAX) (habs : r.textures.get id = none) :
    r.lookup_texture id = Except.error (RendererError.BadTexture id) := by
  simp [Renderer.lookup_texture, hid, habs]

/-- Witness for C5: in a renderer with an empty registry, the
never-registered identifier 5 fails to resolve with `BadTexture 5`. -/
theorem unregistered_id_fails_with_BadTexture_witness :
    r0.lookup_texture 5 = Except.error (RendererError.BadTexture 5) :=
  unregistered_id_fails_with_BadTexture r0 5 (by decide) rfl

/-- C9: `render` never mutates the renderer's persistent state: for every
oracle, renderer and snapshot — hence for every outcome — the renderer
returned by `render` (its context, shader program, font-atlas entry and
texture registry) is the one passed in. -/
theorem render_preserves_renderer_state (env : GpuEnv) (r : Renderer)
    (dd : DrawData) : (Renderer.render env r dd).1 = r := by
  unfold Renderer.render
  split <;> rfl

/-- After `remove id`, the dynamic mapping no longer resolves `id`. -/
theorem Textures.get_remove (ts : Textures) (id : ℕ) :
    (ts.remove id).get id = none := by
  unfold Textures.remove Textures.get
  rw [Option.map_eq_none', List.find?_eq_none]
  intro p hp
  have h := List.of_mem_filter hp
  simp only [ne_eq, decide_not, Bool.not_eq_true', decide_eq_false_iff_not] at h
  simp [h]

/-- C8: round-trip on the texture registry: from any registry state (whose
fresh-identifier counter has not reached the sentinel), inserting a texture
yields an identifier that resolves to that texture, and after removing that
identifier the same resolve fails with `BadTexture`. -/
theorem texture_registry_roundtrip (r : Renderer) (tex : Texture)
    (hnext : r.textures.next ≠ usizeMAX) :
    Renderer.lookup_texture { r with textures := (r.textures.insert tex).2 }
        (r.textures.insert tex).1 = Except.ok tex ∧
    Renderer.lookup_texture
        { r with textures := (r.textures.insert tex).2.remove (r.textures.insert tex).1 }
        (r.textures.insert tex).1 =
      Except.error (RendererError.BadTexture (r.textures.insert tex).1) := by
  constructor
  · simp [Renderer.lookup_texture, Textures.insert, Textures.get, hnext,
      List.find?]
  · simp [Renderer.lookup_texture, Textures.get_remove, Textures.insert, hnext]

/-- Witness for C8: the round-trip at the empty registry with a sample
texture. -/
theorem texture_registry_roundtrip_witness :
    Renderer.lookup_texture { r0 with textures := (r0.textures.insert tex1).2 }
        (r0.textures.insert tex1).1 = Except.ok tex1 ∧
    Renderer.lookup_texture
        { r0 with textures := (r0.textures.insert tex1).2.remove (r0.textures.insert tex1).1 }
        (r0.textures.insert tex1).1 =
      Except.error (RendererError.BadTexture (r0.textures.insert tex1).1) :=
  texture_registry_roundtrip r0 tex1 (by decide)

/-- Counterexample to C6 as stated: the orthographic matrix does not fix
the Z coordinate at `-1` — it negates the input Z, so for the renderer's
2D vertices (positions are `[f32; 2]`; the shader supplies a constant
`z = 0`) the transformed depth is `0`, not `-1`. -/
theorem ortho_matrix_z_counterexample :
    ((orthoMatrix 0 800 0 600).apply ⟨3, 5, 0, 1⟩).z ≠ -1 ∧
    ((orthoMatrix 0 800 0 600).apply ⟨3, 5, 0, 1⟩).z = 0 := by
  constructor <;> norm_num [orthoMatrix, Mat4.apply]

/-- C6 (amended): for non-degenerate display rectangles (`right ≠ left`,
`top ≠ bottom`) the orthographic matrix computed by `render` maps
`x = left` to clip-space `-1` and `x = right` to `+1`, `y = top` to `+1`
and `y = bottom` to `-1`; the Z output is the negation of the input Z —
independent of x and y, hence `0` for the renderer's 2D vertices with
`z = 0` — a 2D-only projection, not used for depth. -/
theorem ortho_matrix_maps_display_rect_to_clip_space
    (left right top bottom : ℚ) (hx : right ≠ left) (hy : top ≠ bottom) :
    (∀ y z : ℚ,
      ((orthoMatrix left right top bottom).apply ⟨left, y, z, 1⟩).x = -1) ∧
    (∀ y z : ℚ,
      ((orthoMatrix left right top bottom).apply ⟨right, y, z, 1⟩).x = 1) ∧
    (∀ x z : ℚ,
      ((orthoMatrix left right top bottom).apply ⟨x, top, z, 1⟩).y = 1) ∧
    (∀ x z : ℚ,
      ((orthoMatrix left right top bottom).apply ⟨x, bottom, z, 1⟩).y = -1) ∧
    (∀ x y z : ℚ,
      ((orthoMatrix left right top bottom).apply ⟨x, y, z, 1⟩).z = -z) := by
  have h1 : right - left ≠ 0 := sub_ne_zero.mpr hx
  have h2 : left - right ≠ 0 := sub_ne_zero.mpr hx.symm
  have h3 : top - bottom ≠ 0 := sub_ne_zero.mpr hy
  have h4 : bottom - top ≠ 0 := sub_ne_zero.mpr hy.symm
  refine ⟨?_, ?_, ?_, ?_, ?_⟩ <;> intros <;>
    simp only [orthoMatrix, Mat4.apply] <;> field_simp <;> ring

/-- Witness for the amended C6: the matrix for the display rectangle
`[0,800] × [0,600]` evaluated at its corners, and the negated depth at a
sample input. -/
theorem ortho_matrix_maps_display_rect_to_clip_space_witness :
    ((orthoMatrix 0 800 0 600).apply ⟨0, 5, 7, 1⟩).x = -1 ∧
    ((orthoMatrix 0 800 0 600).apply ⟨800, 5, 7, 1⟩).x = 1 ∧
    ((orthoMatrix 0 800 0 600).apply ⟨3, 0, 7, 1⟩).y = 1 ∧
    ((orthoMatrix 0 800 0 600).apply ⟨3, 600, 7, 1⟩).y = -1 ∧
    ((orthoMatrix 0 800 0 600).apply ⟨3, 5, 7, 1⟩).z = -7 := by
  have h := ortho_matrix_maps_display_rect_to_clip_space 0 800 0 600
    (by norm_num) (by norm_num)
  exact ⟨h.1 5 7, h.2.1 5 7, h.2.2.1 3 7, h.2.2.2.1 3 7, h.2.2.2.2 3 5 7⟩

/-- Counterexample to C4 as stated: a snapshot whose `display_size` has a
non-positive component (−8) for which `render` nevertheless succeeds and
issues a draw call, because the negative `framebuffer_scale` component
makes `display_size * framebuffer_scale` strictly positive. -/
theorem render_degenerate_claim_counterexample :
    ddNegScale.display_size.1 ≤ 0 ∧
    (Renderer.render envOk r0 ddNegScale).2.1 = RenderOutcome.ok ∧
    (Renderer.render envOk r0 ddNegScale).2.2 ≠ [] := by
  refine ⟨by norm_num [ddNegScale], ?_, ?_⟩ <;>
  · simp only [Renderer.render, ddNegScale, frameCtx, envOk, renderLists,
      renderCmds, Renderer.lookup_texture]
    norm_num [usizeMAX]

/-- C4 (amended): whenever `display_size[0] * framebuffer_scale[0]` or
`display_size[1] * framebuffer_scale[1]` is not strictly positive,
`render` returns success immediately and issues zero draw calls; in
particular this covers every snapshot with a non-positive `display_size`
component whose `framebuffer_scale` components are non-negative. -/
theorem render_skips_degenerate_frames (env : GpuEnv) (r : Renderer)
    (dd : DrawData) :
    (¬(0 < dd.display_size.1 * dd.framebuffer_scale.1 ∧
        0 < dd.display_size.2 * dd.framebuffer_scale.2) →
      Renderer.render env r dd = (r, RenderOutcome.ok, [])) ∧
    ((dd.display_size.1 ≤ 0 ∨ dd.display_size.2 ≤ 0) →
      0 ≤ dd.framebuffer_scale.1 → 0 ≤ dd.framebuffer_scale.2 →
      Renderer.render env r dd = (r, RenderOutcome.ok, [])) := by
  constructor
  · intro h
    unfold Renderer.render
    rw [if_neg h]
  · intro hds hf1 hf2
    unfold Renderer.render
    rw [if_neg]
    rintro ⟨hw, hh⟩
    rcases hds with h | h
    · nlinarith
    · nlinarith

/-- Witness for the amended C4: both degenerate snapshots return success
with zero draw calls. -/
theorem render_skips_degenerate_frames_witness :
    Renderer.render envOk r0 ddZeroW = (r0, RenderOutcome.ok, []) ∧
    Renderer.render envOk r0 ddNegW = (r0, RenderOutcome.ok, []) :=
  ⟨(render_skips_degenerate_frames envOk r0 ddZeroW).1 (by norm_num [ddZeroW]),
   (render_skips_degenerate_frames envOk r0 ddNegW).2
     (Or.inl (by norm_num [ddNegW])) (by norm_num [ddNegW])
     (by norm_num [ddNegW])⟩

/-- Every draw call emitted by the command loop comes from an `Elements`
command of the list, at the matching command index, that survived culling,
resolved its texture, and had in-range offsets; the call is exactly the
one built from that command's parameters. -/
theorem renderCmds_sound (env : GpuEnv) (r : Renderer) (fc : FrameCtx)
    (li vl il : ℕ) :
    ∀ (cmds : List DrawCmd) (seq ci : ℕ) (c : DrawCall),
      c ∈ (renderCmds env r fc li vl il seq ci cmds).2.1 →
      ∃ j count clip tid vo idxo tex,
        cmds.get? j = some (DrawCmd.Elements count clip tid vo idxo) ∧
        c.cmd_index = ci + j ∧
        r.lookup_texture tid = Except.ok tex ∧
        vo ≤ vl ∧ idxo + count ≤ il ∧
        visibleIn fc clip ∧
        c = elemDrawCall fc li (ci + j) count clip tex vo idxo := by
  intro cmds
  induction cmds with
  | nil => intro seq ci c hc; simp [renderCmds] at hc
  | cons cmd rest ih =>
    intro seq ci c hc
    cases cmd with
    | Elements count clip tid vo idxo =>
      simp only [renderCmds] at hc
      by_cases hvis :
          (clip.r0 - fc.clipOff.1) * fc.clipScale.1 < fc.fbWidth ∧
          (clip.r1 - fc.clipOff.2) * fc.clipScale.2 < fc.fbHeight ∧
          0 ≤ (clip.r2 - fc.clipOff.1) * fc.clipScale.1 ∧
          0 ≤ (clip.r3 - fc.clipOff.2) * fc.clipScale.2
      · rw [if_pos hvis] at hc
        cases hl : r.lookup_texture tid with
        | error e => rw [hl] at hc; simp at hc
        | ok tex =>
          rw [hl] at hc
          dsimp only at hc
          by_cases hvo : vl < vo
          · rw [if_pos hvo] at hc; simp at hc
          · rw [if_neg hvo] at hc
            by_cases hio : il < idxo + count
            · rw [if_pos hio] at hc; simp at hc
            · rw [if_neg hio] at hc
              cases hde : env.drawErr seq with
              | some e => rw [hde] at hc; simp at hc
              | none =>
                rw [hde] at hc
                dsimp only at hc
                simp only [List.mem_cons] at hc
                rcases hc with hc | hc
                · exact ⟨0, count, clip, tid, vo, idxo, tex, by simp,
                    by simp [hc, mkDrawCall], hl, by omega, by omega, hvis,
                    by simp [hc, elemDrawCall]⟩
                · obtain ⟨j, count', clip', tid', vo', idxo', tex',
                    h1, h2, h3, h4, h5, h6, h7⟩ := ih (seq + 1) (ci + 1) c hc
                  refine ⟨j + 1, count', clip', tid', vo', idxo', tex',
                    by simpa using h1, by omega, h3, h4, h5, h6, ?_⟩
                  rw [show ci + (j + 1) = ci + 1 + j by omega]
                  exact h7
      · rw [if_neg hvis] at hc
        obtain ⟨j, count', clip', tid', vo', idxo', tex',
          h1, h2, h3, h4, h5, h6, h7⟩ := ih seq (ci + 1) c hc
        refine ⟨j + 1, count', clip', tid', vo', idxo', tex',
          by simpa using h1, by omega, h3, h4, h5, h6, ?_⟩
        rw [show ci + (j + 1) = ci + 1 + j by omega]
        exact h7
    | ResetRenderState =>
      simp only [renderCmds] at hc
      obtain ⟨j, count', clip', tid', vo', idxo', tex',
        h1, h2, h3, h4, h5, h6, h7⟩ := ih seq (ci + 1) c hc
      refine ⟨j + 1, count', clip', tid', vo', idxo', tex',
        by simpa using h1, by omega, h3, h4, h5, h6, ?_⟩
      rw [show ci + (j + 1) = ci + 1 + j by omega]
      exact h7
    | RawCallback raw =>
      simp only [renderCmds] at hc
      obtain ⟨j, count', clip', tid', vo', idxo', tex',
        h1, h2, h3, h4, h5, h6, h7⟩ := ih seq (ci + 1) c hc
      refine ⟨j + 1, count', clip', tid', vo', idxo', tex',
        by simpa using h1, by omega, h3, h4, h5, h6, ?_⟩
      rw [show ci + (j + 1) = ci + 1 + j by omega]
      exact h7

/-- If the command loop completes with `ok`, every `Elements` command that
survives culling got a draw call, at its own command index. -/
theorem renderCmds_complete (env : GpuEnv) (r : Renderer) (fc : FrameCtx)
    (li vl il : ℕ) :
    ∀ (cmds : List DrawCmd) (seq ci j count : ℕ) (clip : ClipRect)
      (tid vo idxo : ℕ),
      (renderCmds env r fc li vl il seq ci cmds).1 = RenderOutcome.ok →
      cmds.get? j = some (DrawCmd.Elements count clip tid vo idxo) →
      visibleIn fc clip →
      ∃ c ∈ (renderCmds env r fc li vl il seq ci cmds).2.1,
        c.cmd_index = ci + j := by
  intro cmds
  induction cmds with
  | nil => intro seq ci j count clip tid vo idxo hok hj hvis; simp at hj
  | cons cmd rest ih =>
    intro seq ci j count clip tid vo idxo hok hj hvis
    cases cmd with
    | Elements count0 clip0 tid0 vo0 idxo0 =>
      simp only [renderCmds] at hok ⊢
      by_cases hv :
          (clip0.r0 - fc.clipOff.1) * fc.clipScale.1 < fc.fbWidth ∧
          (clip0.r1 - fc.clipOff.2) * fc.clipScale.2 < fc.fbHeight ∧
          0 ≤ (clip0.r2 - fc.clipOff.1) * fc.clipScale.1 ∧
          0 ≤ (clip0.r3 - fc.clipOff.2) * fc.clipScale.2
      · rw [if_pos hv] at hok ⊢
        cases hl : r.lookup_texture tid0 with
        | error e =>
          rw [hl] at hok
          dsimp only at hok
          exact absurd hok (by simp)
        | ok tex =>
          rw [hl] at hok
          dsimp only at hok ⊢
          by_cases hvo : vl < vo0
          · rw [if_pos hvo] at hok
            exact absurd hok (by simp)
          · rw [if_neg hvo] at hok ⊢
            by_cases hio : il < idxo0 + count0
            · rw [if_pos hio] at hok
              exact absurd hok (by simp)
            · rw [if_neg hio] at hok ⊢
              cases hde : env.drawErr seq with
              | some e =>
                rw [hde] at hok
                exact absurd hok (by simp)
              | none =>
                rw [hde] at hok
                dsimp only at hok ⊢
                cases j with
                | zero =>
                  exact ⟨mkDrawCall fc li ci count0
                      ((clip0.r0 - fc.clipOff.1) * fc.clipScale.1)
                      ((clip0.r1 - fc.clipOff.2) * fc.clipScale.2)
                      ((clip0.r2 - fc.clipOff.1) * fc.clipScale.1)
                      ((clip0.r3 - fc.clipOff.2) * fc.clipScale.2) tex vo0 idxo0,
                    List.mem_cons_self _ _, by simp [mkDrawCall]⟩
                | succ j' =>
                  simp only [List.get?_cons_succ] at hj
                  obtain ⟨c, hcmem, hci⟩ :=
                    ih (seq + 1) (ci + 1) j' count clip tid vo idxo hok hj hvis
                  exact ⟨c, List.mem_cons_of_mem _ hcmem, by omega⟩
      · rw [if_neg hv] at hok ⊢
        cases j with
        | zero =>
          simp only [List.get?_cons_zero, Option.some_inj] at hj
          cases hj
          unfold visibleIn at hvis
          exact absurd hvis hv
        | succ j' =>
          simp only [List.get?_cons_succ] at hj
          obtain ⟨c, hcmem, hci⟩ :=
            ih seq (ci + 1) j' count clip tid vo idxo hok hj hvis
          exact ⟨c, hcmem, by omega⟩
    | ResetRenderState =>
      simp only [renderCmds] at hok ⊢
      cases j with
      | zero => simp at hj
      | succ j' =>
        simp only [List.get?_cons_succ] at hj
        obtain ⟨c, hcmem, hci⟩ :=
          ih seq (ci + 1) j' count clip tid vo idxo hok hj hvis
        exact ⟨c, hcmem, by omega⟩
    | RawCallback raw =>
      simp only [renderCmds] at hok ⊢
      cases j with
      | zero => simp at hj
      | succ j' =>
        simp only [List.get?_cons_succ] at hj
        obtain ⟨c, hcmem, hci⟩ :=
          ih seq (ci + 1) j' count clip tid vo idxo hok hj hvis
        exact ⟨c, hcmem, by omega⟩

/-- Every draw call emitted by the draw-list loop comes from the command
loop of the list at the matching list index. -/
theorem renderLists_sound (env : GpuEnv) (r : Renderer) (fc : FrameCtx) :
    ∀ (ls : List DrawList) (li0 seq : ℕ) (c : DrawCall),
      c ∈ (renderLists env r fc li0 seq ls).2.1 →
      ∃ i dl s,
        ls.get? i = some dl ∧
        c ∈ (renderCmds env r fc (li0 + i) dl.vtx_buffer.length
              dl.idx_buffer.length s 0 dl.commands).2.1 := by
  intro ls
  induction ls with
  | nil => intro li0 seq c hc; simp [renderLists] at hc
  | cons dl0 rest ih =>
    intro li0 seq c hc
    simp only [renderLists] at hc
    cases hv : env.vtxErr li0 with
    | some e => rw [hv] at hc; simp at hc
    | none =>
      rw [hv] at hc
      dsimp only at hc
      cases hi : env.idxErr li0 with
      | some e => rw [hi] at hc; simp at hc
      | none =>
        rw [hi] at hc
        dsimp only at hc
        by_cases hcok :
            (renderCmds env r fc li0 dl0.vtx_buffer.length
              dl0.idx_buffer.length seq 0 dl0.commands).1 = RenderOutcome.ok
        · rw [if_pos hcok] at hc
          dsimp only at hc
          rw [List.mem_append] at hc
          rcases hc with hc | hc
          · exact ⟨0, dl0, seq, by simp, by simpa using hc⟩
          · obtain ⟨i, dl', s, h1, h2⟩ := ih (li0 + 1)
              ((renderCmds env r fc li0 dl0.vtx_buffer.length
                dl0.idx_buffer.length seq 0 dl0.commands).2.2) c hc
            refine ⟨i + 1, dl', s, by simpa using h1, ?_⟩
            rw [show li0 + (i + 1) = li0 + 1 + i by omega]
            exact h2
        · rw [if_neg hcok] at hc
          exact ⟨0, dl0, seq, by simp, by simpa using hc⟩

/-- If the draw-list loop completes with `ok`, every draw list was fully
processed by an `ok` run of the command loop, and the calls of that run
are among the loop's calls. -/
theorem renderLists_complete (env : GpuEnv) (r : Renderer) (fc : FrameCtx) :
    ∀ (ls : List DrawList) (li0 seq i : ℕ) (dl : DrawList),
      (renderLists env r fc li0 seq ls).1 = RenderOutcome.ok →
      ls.get? i = some dl →
      ∃ s,
        (renderCmds env r fc (li0 + i) dl.vtx_buffer.length
          dl.idx_buffer.length s 0 dl.commands).1 = RenderOutcome.ok ∧
        ∀ c ∈ (renderCmds env r fc (li0 + i) dl.vtx_buffer.length
            dl.idx_buffer.length s 0 dl.commands).2.1,
          c ∈ (renderLists env r fc li0 seq ls).2.1 := by
  intro ls
  induction ls with
  | nil => intro li0 seq i dl hok hi; simp at hi
  | cons dl0 rest ih =>
    intro li0 seq i dl hok hdl
    simp only [renderLists] at hok ⊢
    cases hv : env.vtxErr li0 with
    | some e => rw [hv] at hok; exact absurd hok (by simp)
    | none =>
      rw [hv] at hok
      dsimp only at hok ⊢
      cases hi : env.idxErr li0 with
      | some e => rw [hi] at hok; exact absurd hok (by simp)
      | none =>
        rw [hi] at hok
        dsimp only at hok ⊢
        by_cases hcok :
            (renderCmds env r fc li0 dl0.vtx_buffer.length
              dl0.idx_buffer.length seq 0 dl0.commands).1 = RenderOutcome.ok
        · rw [if_pos hcok] at hok ⊢
          dsimp only at hok ⊢
          cases i with
          | zero =>
            simp only [List.get?_cons_zero, Option.some_inj] at hdl
            subst hdl
            refine ⟨seq, by simpa using hcok, ?_⟩
            intro c hc
            rw [List.mem_append]
            left
            simpa using hc
          | succ i' =>
            simp only [List.get?_cons_succ] at hdl
            obtain ⟨s, h1, h2⟩ := ih (li0 + 1)
              ((renderCmds env r fc li0 dl0.vtx_buffer.length
                dl0.idx_buffer.length seq 0 dl0.commands).2.2) i' dl hok hdl
            refine ⟨s, ?_, ?_⟩
            · rw [show li0 + (i' + 1) = li0 + 1 + i' by omega]
              exact h1
            · intro c hc
              rw [List.mem_append]
              right
              apply h2
              rw [show li0 + 1 + i' = li0 + (i' + 1) by omega]
              exact hc
        · rw [if_neg hcok] at hok
          exact absurd hok hcok

/-- With positive framebuffer dimensions, `render` runs the draw-list loop. -/
theorem render_eq_of_pos (env : GpuEnv) (r : Renderer) (dd : DrawData)
    (h : 0 < dd.display_size.1 * dd.framebuffer_scale.1 ∧
      0 < dd.display_size.2 * dd.framebuffer_scale.2) :
    Renderer.render env r dd =
      (r, (renderLists env r (frameCtx dd) 0 0 dd.draw_lists).1,
        (renderLists env r (frameCtx dd) 0 0 dd.draw_lists).2.1) := by
  unfold Renderer.render
  rw [if_pos h]

/-- C1: in a frame with positive framebuffer dimensions that renders to
completion, an `Elements` command receives a draw call exactly when its
clip rectangle, transformed by `(clip - display_pos) * framebuffer_scale`,
intersects the framebuffer: it is culled precisely when the transformed
left/top edge is ≥ the framebuffer width/height or the transformed
right/bottom edge is < 0. -/
theorem render_culls_exactly (env : GpuEnv) (r : Renderer) (dd : DrawData)
    (li ci count : ℕ) (clip : ClipRect) (tid vo idxo : ℕ) (dl : DrawList)
    (hok : (Renderer.render env r dd).2.1 = RenderOutcome.ok)
    (hw : 0 < dd.display_size.1 * dd.framebuffer_scale.1)
    (hh : 0 < dd.display_size.2 * dd.framebuffer_scale.2)
    (hdl : dd.draw_lists.get? li = some dl)
    (hcmd : dl.commands.get? ci =
      some (DrawCmd.Elements count clip tid vo idxo)) :
    (∃ c ∈ (Renderer.render env r dd).2.2,
        c.list_index = li ∧ c.cmd_index = ci) ↔
      ¬(dd.display_size.1 * dd.framebuffer_scale.1 ≤
          (clip.r0 - dd.display_pos.1) * dd.framebuffer_scale.1 ∨
        dd.display_size.2 * dd.framebuffer_scale.2 ≤
          (clip.r1 - dd.display_pos.2) * dd.framebuffer_scale.2 ∨
        (clip.r2 - dd.display_pos.1) * dd.framebuffer_scale.1 < 0 ∨
        (clip.r3 - dd.display_pos.2) * dd.framebuffer_scale.2 < 0) := by
  rw [render_eq_of_pos env r dd ⟨hw, hh⟩] at hok ⊢
  dsimp only at hok ⊢
  constructor
  · rintro ⟨c, hcmem, hli, hci⟩
    obtain ⟨i, dl', s, h1, h2⟩ :=
      renderLists_sound env r (frameCtx dd) dd.draw_lists 0 0 c hcmem
    obtain ⟨j, count', clip', tid', vo', idxo', tex',
      g1, g2, g3, g4, g5, g6, g7⟩ :=
      renderCmds_sound env r (frameCtx dd) (0 + i) _ _ dl'.commands s 0 c h2
    have hlieq : i = li := by
      have hcli : c.list_index = 0 + i := by
        rw [g7]; simp [elemDrawCall, mkDrawCall]
      omega
    subst hlieq
    rw [hdl] at h1
    obtain rfl : dl' = dl := by injection h1 with h; exact h.symm
    have hcieq : j = ci := by omega
    subst hcieq
    rw [hcmd] at g1
    injection g1 with g1
    injection g1 with e1 e2 e3 e4 e5
    subst e1; subst e2; subst e3; subst e4; subst e5
    unfold visibleIn at g6
    simp only [frameCtx] at g6
    push_neg
    exact ⟨g6.1, g6.2.1, g6.2.2.1, g6.2.2.2⟩
  · intro hncull
    have hvis : visibleIn (frameCtx dd) clip := by
      unfold visibleIn
      simp only [frameCtx]
      push_neg at hncull
      exact ⟨hncull.1, hncull.2.1, hncull.2.2.1, hncull.2.2.2⟩
    obtain ⟨s, hsok, hsub⟩ :=
      renderLists_complete env r (frameCtx dd) dd.draw_lists 0 0 li dl hok hdl
    obtain ⟨c, hcmem, hci⟩ :=
      renderCmds_complete env r (frameCtx dd) (0 + li) _ _ dl.commands s 0
        ci count clip tid vo idxo hsok hcmd hvis
    refine ⟨c, hsub c hcmem, ?_, by simpa using hci⟩
    obtain ⟨j, count', clip', tid', vo', idxo', tex',
      g1, g2, g3, g4, g5, g6, g7⟩ :=
      renderCmds_sound env r (frameCtx dd) (0 + li) _ _ dl.commands s 0 c hcmem
    rw [g7]
    simp [elemDrawCall, mkDrawCall]

/-- C2: every draw call issued for a surviving `Elements` command carries a
scissor rectangle whose origin coordinates are non-negative —
`left = ⌊max 0 (transformed left)⌋` and, vertically flipped,
`bottom = ⌊max 0 (fb_height - transformed bottom)⌋` — and whose width and
height are the (rounded-up) absolute differences of the unclamped
transformed clip edges, however far negative the source rectangle extends. -/
theorem render_scissor_clamped_and_flipped (env : GpuEnv) (r : Renderer)
    (dd : DrawData) (c : DrawCall) (count : ℕ) (clip : ClipRect)
    (tid vo idxo : ℕ) (dl : DrawList)
    (hc : c ∈ (Renderer.render env r dd).2.2)
    (hdl : dd.draw_lists.get? c.list_index = some dl)
    (hcmd : dl.commands.get? c.cmd_index =
      some (DrawCmd.Elements count clip tid vo idxo)) :
    0 ≤ c.scissor.left ∧ 0 ≤ c.scissor.bottom ∧
    c.scissor.left =
      ⌊max 0 ((clip.r0 - dd.display_pos.1) * dd.framebuffer_scale.1)⌋ ∧
    c.scissor.bottom =
      ⌊max 0 (dd.display_size.2 * dd.framebuffer_scale.2 -
        (clip.r3 - dd.display_pos.2) * dd.framebuffer_scale.2)⌋ ∧
    c.scissor.width =
      ⌈|(clip.r2 - dd.display_pos.1) * dd.framebuffer_scale.1 -
        (clip.r0 - dd.display_pos.1) * dd.framebuffer_scale.1|⌉ ∧
    c.scissor.height =
      ⌈|(clip.r3 - dd.display_pos.2) * dd.framebuffer_scale.2 -
        (clip.r1 - dd.display_pos.2) * dd.framebuffer_scale.2|⌉ := by
  by_cases hpos : 0 < dd.display_size.1 * dd.framebuffer_scale.1 ∧
      0 < dd.display_size.2 * dd.framebuffer_scale.2
  · rw [render_eq_of_pos env r dd hpos] at hc
    dsimp only at hc
    obtain ⟨i, dl', s, h1, h2⟩ :=
      renderLists_sound env r (frameCtx dd) dd.draw_lists 0 0 c hc
    obtain ⟨j, count', clip', tid', vo', idxo', tex',
      g1, g2, g3, g4, g5, g6, g7⟩ :=
      renderCmds_sound env r (frameCtx dd) (0 + i) _ _ dl'.commands s 0 c h2
    have hcli : c.list_index = 0 + i := by
      rw [g7]; simp [elemDrawCall, mkDrawCall]
    have hlieq : i = c.list_index := by omega
    rw [← hlieq] at hdl
    rw [hdl] at h1
    obtain rfl : dl' = dl := by injection h1 with h; exact h.symm
    have hcieq : j = c.cmd_index := by omega
    rw [← hcieq] at hcmd
    rw [hcmd] at g1
    injection g1 with g1
    injection g1 with e1 e2 e3 e4 e5
    subst e1; subst e2; subst e3; subst e4; subst e5
    rw [g7]
    simp only [elemDrawCall, mkDrawCall, frameCtx]
    exact ⟨Int.floor_nonneg.mpr (le_max_left 0 _),
      Int.floor_nonneg.mpr (le_max_left 0 _), trivial, trivial, trivial,
      trivial⟩
  · unfold Renderer.render at hc
    rw [if_neg hpos] at hc
    simp at hc

theorem renderW_ok : (Renderer.render envOk r0 ddW).2.1 = RenderOutcome.ok := by
  simp only [Renderer.render, ddW, dlW, clipW, frameCtx, envOk, renderLists,
    renderCmds, Renderer.lookup_texture]
  norm_num [usizeMAX]

/-- Witness for C1: in the sample frame the command survives culling and
gets a draw call. -/
theorem render_culls_exactly_witness :
    (∃ c ∈ (Renderer.render envOk r0 ddW).2.2,
        c.list_index = 0 ∧ c.cmd_index = 0) ↔
      ¬(ddW.display_size.1 * ddW.framebuffer_scale.1 ≤
          (clipW.r0 - ddW.display_pos.1) * ddW.framebuffer_scale.1 ∨
        ddW.display_size.2 * ddW.framebuffer_scale.2 ≤
          (clipW.r1 - ddW.display_pos.2) * ddW.framebuffer_scale.2 ∨
        (clipW.r2 - ddW.display_pos.1) * ddW.framebuffer_scale.1 < 0 ∨
        (clipW.r3 - ddW.display_pos.2) * ddW.framebuffer_scale.2 < 0) :=
  render_culls_exactly envOk r0 ddW 0 0 3 clipW usizeMAX 0 0 dlW
    renderW_ok (by norm_num [ddW]) (by norm_num [ddW]) rfl rfl

theorem cW_mem : cW ∈ (Renderer.render envOk r0 ddW).2.2 := by
  simp only [Renderer.render, ddW, dlW, clipW, frameCtx, envOk, renderLists,
    renderCmds, Renderer.lookup_texture]
  norm_num [usizeMAX, cW, elemDrawCall, frameCtx, ddW, clipW]

/-- Witness for C2: the sample frame's draw call has clamped, flipped
scissor origin and rounded absolute-difference extent. -/
theorem render_scissor_clamped_and_flipped_witness :
    0 ≤ cW.scissor.left ∧ 0 ≤ cW.scissor.bottom ∧
    cW.scissor.left =
      ⌊max 0 ((clipW.r0 - ddW.display_pos.1) * ddW.framebuffer_scale.1)⌋ ∧
    cW.scissor.bottom =
      ⌊max 0 (ddW.display_size.2 * ddW.framebuffer_scale.2 -
        (clipW.r3 - ddW.display_pos.2) * ddW.framebuffer_scale.2)⌋ ∧
    cW.scissor.width =
      ⌈|(clipW.r2 - ddW.display_pos.1) * ddW.framebuffer_scale.1 -
        (clipW.r0 - ddW.display_pos.1) * ddW.framebuffer_scale.1|⌉ ∧
    cW.scissor.height =
      ⌈|(clipW.r3 - ddW.display_pos.2) * ddW.framebuffer_scale.2 -
        (clipW.r1 - ddW.display_pos.2) * ddW.framebuffer_scale.2|⌉ :=
  render_scissor_clamped_and_flipped envOk r0 ddW cW 3 clipW usizeMAX 0 0 dlW
    cW_mem rfl rfl

/-- A typed error in a prefix of the command loop makes any following
commands irrelevant: they are never processed, and the draw calls issued
before the failure are kept. -/
theorem renderCmds_append_of_error (env : GpuEnv) (r : Renderer)
    (fc : FrameCtx) (li vl il : ℕ) :
    ∀ (cmds₁ cmds₂ : List DrawCmd) (seq ci : ℕ) (e : RendererError),
      (renderCmds env r fc li vl il seq ci cmds₁).1 = RenderOutcome.error e →
      renderCmds env r fc li vl il seq ci (cmds₁ ++ cmds₂) =
        renderCmds env r fc li vl il seq ci cmds₁ := by
  intro cmds₁
  induction cmds₁ with
  | nil => intro cmds₂ seq ci e h; simp [renderCmds] at h
  | cons cmd rest ih =>
    intro cmds₂ seq ci e h
    cases cmd with
    | Elements count clip tid vo idxo =>
      simp only [List.cons_append, renderCmds] at h ⊢
      by_cases hv :
          (clip.r0 - fc.clipOff.1) * fc.clipScale.1 < fc.fbWidth ∧
          (clip.r1 - fc.clipOff.2) * fc.clipScale.2 < fc.fbHeight ∧
          0 ≤ (clip.r2 - fc.clipOff.1) * fc.clipScale.1 ∧
          0 ≤ (clip.r3 - fc.clipOff.2) * fc.clipScale.2
      · rw [if_pos hv] at h
        rw [if_pos hv, if_pos hv]
        cases hl : r.lookup_texture tid with
        | error e' => rfl
        | ok tex =>
          rw [hl] at h
          dsimp only at h ⊢
          by_cases hvo : vl < vo
          · rw [if_pos hvo] at h; simp at h
          · rw [if_neg hvo] at h
            rw [if_neg hvo, if_neg hvo]
            by_cases hio : il < idxo + count
            · rw [if_pos hio] at h; simp at h
            · rw [if_neg hio] at h
              rw [if_neg hio, if_neg hio]
              cases hde : env.drawErr seq with
              | some e' => rfl
              | none =>
                rw [hde] at h
                dsimp only at h ⊢
                rw [List.append_eq, ih cmds₂ (seq + 1) (ci + 1) e h]
      · rw [if_neg hv] at h
        rw [if_neg hv, if_neg hv]
        exact ih cmds₂ seq (ci + 1) e h
    | ResetRenderState =>
      simp only [List.cons_append, renderCmds] at h ⊢
      exact ih cmds₂ seq (ci + 1) e h
    | RawCallback raw =>
      simp only [List.cons_append, renderCmds] at h ⊢
      exact ih cmds₂ seq (ci + 1) e h

/-- A typed error in a prefix of the draw-list loop makes any following
draw lists irrelevant, keeping the draw calls already issued. -/
theorem renderLists_append_of_error (env : GpuEnv) (r : Renderer)
    (fc : FrameCtx) :
    ∀ (ls₁ ls₂ : List DrawList) (li0 seq : ℕ) (e : RendererError),
      (renderLists env r fc li0 seq ls₁).1 = RenderOutcome.error e →
      renderLists env r fc li0 seq (ls₁ ++ ls₂) =
        renderLists env r fc li0 seq ls₁ := by
  intro ls₁
  induction ls₁ with
  | nil => intro ls₂ li0 seq e h; simp [renderLists] at h
  | cons dl0 rest ih =>
    intro ls₂ li0 seq e h
    simp only [List.cons_append, renderLists] at h ⊢
    cases hv : env.vtxErr li0 with
    | some e' => rfl
    | none =>
      rw [hv] at h
      dsimp only at h ⊢
      cases hi : env.idxErr li0 with
      | some e' => rfl
      | none =>
        rw [hi] at h
        dsimp only at h ⊢
        by_cases hcok :
            (renderCmds env r fc li0 dl0.vtx_buffer.length
              dl0.idx_buffer.length seq 0 dl0.commands).1 = RenderOutcome.ok
        · rw [if_pos hcok] at h
          rw [if_pos hcok, if_pos hcok]
          dsimp only at h ⊢
          rw [List.append_eq, ih ls₂ (li0 + 1)
            ((renderCmds env r fc li0 dl0.vtx_buffer.length
              dl0.idx_buffer.length seq 0 dl0.commands).2.2) e h]
        · rw [if_neg hcok] at h
          rw [if_neg hcok, if_neg hcok]

/-- The rectangle `clipW` survives culling in the sample frame. -/
theorem clipW_visible : visibleIn (frameCtx ddW) clipW := by
  norm_num [visibleIn, frameCtx, ddW, clipW]

/-- C7: failure of any sub-step aborts the rest of the frame and
propagates as the corresponding typed `RendererError`, without rolling
back draw calls already issued: (1) an error outcome of `render` is the
error of its draw-list loop and the calls issued before the failure are
still returned; (2)/(3) after an error, appended commands/draw lists are
never processed and the loop's output is unchanged; (4)–(7) vertex buffer
creation, index buffer creation, texture resolution and draw submission
failures produce exactly the `Vertex`, `Index`, `BadTexture` (via
`lookup_texture`) and `Draw` variants, processing nothing further. -/
theorem render_error_propagation :
    (∀ (env : GpuEnv) (r : Renderer) (dd : DrawData) (e : RendererError),
      (Renderer.render env r dd).2.1 = RenderOutcome.error e →
      (renderLists env r (frameCtx dd) 0 0 dd.draw_lists).1 =
        RenderOutcome.error e ∧
      (Renderer.render env r dd).2.2 =
        (renderLists env r (frameCtx dd) 0 0 dd.draw_lists).2.1) ∧
    (∀ (env : GpuEnv) (r : Renderer) (fc : FrameCtx) (li vl il : ℕ)
        (cmds₁ cmds₂ : List DrawCmd) (seq ci : ℕ) (e : RendererError),
      (renderCmds env r fc li vl il seq ci cmds₁).1 = RenderOutcome.error e →
      renderCmds env r fc li vl il seq ci (cmds₁ ++ cmds₂) =
        renderCmds env r fc li vl il seq ci cmds₁) ∧
    (∀ (env : GpuEnv) (r : Renderer) (fc : FrameCtx)
        (ls₁ ls₂ : List DrawList) (li0 seq : ℕ) (e : RendererError),
      (renderLists env r fc li0 seq ls₁).1 = RenderOutcome.error e →
      renderLists env r fc li0 seq (ls₁ ++ ls₂) =
        renderLists env r fc li0 seq ls₁) ∧
    (∀ (env : GpuEnv) (r : Renderer) (fc : FrameCtx) (li seq : ℕ)
        (dl : DrawList) (rest : List DrawList) (e : ℕ),
      env.vtxErr li = some e →
      renderLists env r fc li seq (dl :: rest) =
        (RenderOutcome.error (RendererError.Vertex e), [], seq)) ∧
    (∀ (env : GpuEnv) (r : Renderer) (fc : FrameCtx) (li seq : ℕ)
        (dl : DrawList) (rest : List DrawList) (e : ℕ),
      env.vtxErr li = none → env.idxErr li = some e →
      renderLists env r fc li seq (dl :: rest) =
        (RenderOutcome.error (RendererError.Index e), [], seq)) ∧
    (∀ (env : GpuEnv) (r : Renderer) (fc : FrameCtx) (li vl il seq ci : ℕ)
        (count : ℕ) (clip : ClipRect) (tid vo idxo : ℕ)
        (rest : List DrawCmd) (e : RendererError),
      visibleIn fc clip → r.lookup_texture tid = Except.error e →
      renderCmds env r fc li vl il seq ci
          (DrawCmd.Elements count clip tid vo idxo :: rest) =
        (RenderOutcome.error e, [], seq)) ∧
    (∀ (env : GpuEnv) (r : Renderer) (fc : FrameCtx) (li vl il seq ci : ℕ)
        (count : ℕ) (clip : ClipRect) (tid vo idxo : ℕ)
        (rest : List DrawCmd) (tex : Texture) (e : ℕ),
      visibleIn fc clip → r.lookup_texture tid = Except.ok tex →
      vo ≤ vl → idxo + count ≤ il → env.drawErr seq = some e →
      renderCmds env r fc li vl il seq ci
          (DrawCmd.Elements count clip tid vo idxo :: rest) =
        (RenderOutcome.error (RendererError.Draw e), [], seq)) := by
  refine ⟨?_, ?_, ?_, ?_, ?_, ?_, ?_⟩
  · intro env r dd e h
    by_cases hpos : 0 < dd.display_size.1 * dd.framebuffer_scale.1 ∧
        0 < dd.display_size.2 * dd.framebuffer_scale.2
    · rw [render_eq_of_pos env r dd hpos] at h ⊢
      exact ⟨h, rfl⟩
    · unfold Renderer.render at h
      rw [if_neg hpos] at h
      simp at h
  · exact fun env r fc li vl il =>
      renderCmds_append_of_error env r fc li vl il
  · exact fun env r fc => renderLists_append_of_error env r fc
  · intro env r fc li seq dl rest e hv
    simp only [renderLists, hv]
  · intro env r fc li seq dl rest e hv hi
    simp only [renderLists, hv, hi]
  · intro env r fc li vl il seq ci count clip tid vo idxo rest e hvis hl
    unfold visibleIn at hvis
    simp only [renderCmds]
    rw [if_pos hvis, hl]
  · intro env r fc li vl il seq ci count clip tid vo idxo rest tex e
      hvis hl hvo hio hde
    unfold visibleIn at hvis
    simp only [renderCmds]
    rw [if_pos hvis, hl]
    dsimp only
    rw [if_neg (by omega : ¬vl < vo), if_neg (by omega : ¬il < idxo + count),
      hde]

/-- Witness for C7: vertex-buffer failure yields `Vertex`, an unregistered
texture id on a surviving command yields `BadTexture`, each with no calls
issued and nothing further processed. -/
theorem render_error_propagation_witness :
    renderLists envVtxFail r0 (frameCtx ddW) 0 0 [dlW] =
      (RenderOutcome.error (RendererError.Vertex 1), [], 0) ∧
    renderCmds envOk r0 (frameCtx ddW) 0 3 3 0 0
        [DrawCmd.Elements 3 clipW 5 0 0] =
      (RenderOutcome.error (RendererError.BadTexture 5), [], 0) :=
  ⟨render_error_propagation.2.2.2.1 envVtxFail r0 (frameCtx ddW) 0 0 dlW [] 1
      rfl,
   render_error_propagation.2.2.2.2.2.1 envOk r0 (frameCtx ddW) 0 3 3 0 0 3
      clipW 5 0 0 [] (RendererError.BadTexture 5) clipW_visible rfl⟩

/-- The command loop cannot panic when all its commands' offsets are in
range for the list's buffers. -/
theorem renderCmds_no_panic (env : GpuEnv) (r : Renderer) (fc : FrameCtx)
    (li vl il : ℕ) :
    ∀ (cmds : List DrawCmd) (seq ci : ℕ),
      (∀ cmd ∈ cmds, ∀ (count : ℕ) (clip : ClipRect) (tid vo idxo : ℕ),
        cmd = DrawCmd.Elements count clip tid vo idxo →
        vo ≤ vl ∧ idxo + count ≤ il) →
      ∀ msg, (renderCmds env r fc li vl il seq ci cmds).1 ≠
        RenderOutcome.panicked msg := by
  intro cmds
  induction cmds with
  | nil => intro seq ci hin msg; simp [renderCmds]
  | cons cmd rest ih =>
    intro seq ci hin msg
    have hinrest : ∀ cmd ∈ rest, ∀ (count : ℕ) (clip : ClipRect)
        (tid vo idxo : ℕ), cmd = DrawCmd.Elements count clip tid vo idxo →
        vo ≤ vl ∧ idxo + count ≤ il :=
      fun c hc => hin c (List.mem_cons_of_mem _ hc)
    cases cmd with
    | Elements count clip tid vo idxo =>
      have hbound := hin _ (List.mem_cons_self _ _) count clip tid vo idxo rfl
      simp only [renderCmds]
      by_cases hv :
          (clip.r0 - fc.clipOff.1) * fc.clipScale.1 < fc.fbWidth ∧
          (clip.r1 - fc.clipOff.2) * fc.clipScale.2 < fc.fbHeight ∧
          0 ≤ (clip.r2 - fc.clipOff.1) * fc.clipScale.1 ∧
          0 ≤ (clip.r3 - fc.clipOff.2) * fc.clipScale.2
      · rw [if_pos hv]
        cases hl : r.lookup_texture tid with
        | error e => simp
        | ok tex =>
          dsimp only
          rw [if_neg (by omega : ¬vl < vo),
            if_neg (by omega : ¬il < idxo + count)]
          cases hde : env.drawErr seq with
          | some e => simp
          | none =>
            dsimp only
            exact ih (seq + 1) (ci + 1) hinrest msg
      · rw [if_neg hv]
        exact ih seq (ci + 1) hinrest msg
    | ResetRenderState =>
      simp only [renderCmds]
      exact ih seq (ci + 1) hinrest msg
    | RawCallback raw =>
      simp only [renderCmds]
      exact ih seq (ci + 1) hinrest msg

/-- The draw-list loop cannot panic when every list's commands have
in-range offsets. -/
theorem renderLists_no_panic (env : GpuEnv) (r : Renderer) (fc : FrameCtx) :
    ∀ (ls : List DrawList) (li0 seq : ℕ),
      (∀ dl ∈ ls, ∀ cmd ∈ dl.commands,
        ∀ (count : ℕ) (clip : ClipRect) (tid vo idxo : ℕ),
          cmd = DrawCmd.Elements count clip tid vo idxo →
          vo ≤ dl.vtx_buffer.length ∧ idxo + count ≤ dl.idx_buffer.length) →
      ∀ msg, (renderLists env r fc li0 seq ls).1 ≠
        RenderOutcome.panicked msg := by
  intro ls
  induction ls with
  | nil => intro li0 seq hin msg; simp [renderLists]
  | cons dl0 rest ih =>
    intro li0 seq hin msg
    have hinrest : ∀ dl ∈ rest, ∀ cmd ∈ dl.commands,
        ∀ (count : ℕ) (clip : ClipRect) (tid vo idxo : ℕ),
          cmd = DrawCmd.Elements count clip tid vo idxo →
          vo ≤ dl.vtx_buffer.length ∧ idxo + count ≤ dl.idx_buffer.length :=
      fun dl hdl => hin dl (List.mem_cons_of_mem _ hdl)
    have hin0 := hin dl0 (List.mem_cons_self _ _)
    simp only [renderLists]
    cases hv : env.vtxErr li0 with
    | some e => simp
    | none =>
      dsimp only
      cases hi : env.idxErr li0 with
      | some e => simp
      | none =>
        dsimp only
        by_cases hcok :
            (renderCmds env r fc li0 dl0.vtx_buffer.length
              dl0.idx_buffer.length seq 0 dl0.commands).1 = RenderOutcome.ok
        · rw [if_pos hcok]
          dsimp only
          exact ih (li0 + 1)
            ((renderCmds env r fc li0 dl0.vtx_buffer.length
              dl0.idx_buffer.length seq 0 dl0.commands).2.2) hinrest msg
        · rw [if_neg hcok]
          exact renderCmds_no_panic env r fc li0 dl0.vtx_buffer.length
            dl0.idx_buffer.length dl0.commands seq 0 hin0 msg

/-- C10: the buffer-slice bound checks panic rather than return a typed
error: a surviving `Elements` command whose vertex offset exceeds the
list's vertex count, or whose index offset plus count exceeds its index
count, makes the command loop end in a panic (the `.expect` messages),
with no draw call issued for it; and under the precondition that every
command's offsets are in range, `render` never reaches a panic. -/
theorem render_panic_conditions :
    (∀ (env : GpuEnv) (r : Renderer) (dd : DrawData), offsetsInRange dd →
      ∀ msg,
        (Renderer.render env r dd).2.1 ≠ RenderOutcome.panicked msg) ∧
    (∀ (env : GpuEnv) (r : Renderer) (fc : FrameCtx) (li vl il seq ci : ℕ)
        (count : ℕ) (clip : ClipRect) (tid vo idxo : ℕ)
        (rest : List DrawCmd) (tex : Texture),
      visibleIn fc clip → r.lookup_texture tid = Except.ok tex → vl < vo →
      renderCmds env r fc li vl il seq ci
          (DrawCmd.Elements count clip tid vo idxo :: rest) =
        (RenderOutcome.panicked "Invalid vertex buffer range", [], seq)) ∧
    (∀ (env : GpuEnv) (r : Renderer) (fc : FrameCtx) (li vl il seq ci : ℕ)
        (count : ℕ) (clip : ClipRect) (tid vo idxo : ℕ)
        (rest : List DrawCmd) (tex : Texture),
      visibleIn fc clip → r.lookup_texture tid = Except.ok tex → vo ≤ vl →
      il < idxo + count →
      renderCmds env r fc li vl il seq ci
          (DrawCmd.Elements count clip tid vo idxo :: rest) =
        (RenderOutcome.panicked "Invalid index buffer range", [], seq)) := by
  refine ⟨?_, ?_, ?_⟩
  · intro env r dd hin msg
    unfold offsetsInRange at hin
    unfold Renderer.render
    split
    · dsimp only
      exact renderLists_no_panic env r (frameCtx dd) dd.draw_lists 0 0 hin msg
    · simp
  · intro env r fc li vl il seq ci count clip tid vo idxo rest tex
      hvis hl hvo
    unfold visibleIn at hvis
    simp only [renderCmds]
    rw [if_pos hvis, hl]
    dsimp only
    rw [if_pos hvo]
  · intro env r fc li vl il seq ci count clip tid vo idxo rest tex
      hvis hl hvo hio
    unfold visibleIn at hvis
    simp only [renderCmds]
    rw [if_pos hvis, hl]
    dsimp only
    rw [if_neg (by omega : ¬vl < vo), if_pos hio]

/-- The sample frame's offsets are in range. -/
theorem ddW_offsets : offsetsInRange ddW := by
  intro dl hdl cmd hcmd count clip tid vo idxo he
  simp only [ddW, List.mem_singleton] at hdl
  subst hdl
  simp only [dlW, List.mem_singleton] at hcmd
  subst hcmd
  injection he with h1 h2 h3 h4 h5
  subst h1; subst h4; subst h5
  exact ⟨by decide, by decide⟩

/-- Witness for C10: the in-range sample frame does not panic, while a
command with vertex offset 5 into a 0-vertex buffer panics with the
vertex-range message. -/
theorem render_panic_conditions_witness :
    (Renderer.render envOk r0 ddW).2.1 ≠
      RenderOutcome.panicked "Invalid vertex buffer range" ∧
    renderCmds envOk r0 (frameCtx ddW) 0 0 3 0 0
        [DrawCmd.Elements 3 clipW usizeMAX 5 0] =
      (RenderOutcome.panicked "Invalid vertex buffer range", [], 0) :=
  ⟨render_panic_conditions.1 envOk r0 ddW ddW_offsets _,
   render_panic_conditions.2.1 envOk r0 (frameCtx ddW) 0 0 3 0 0 3 clipW
      usizeMAX 5 0 [] r0.font_texture clipW_visible rfl (by omega)⟩
